import Mathlib

/-!
Verification of the dropstep browser-agent action layer.

This file embeds the three custom browser actions of
`internal/agentassets/agent_scripts/actions.py` (file upload,
click-and-wait-for-download, latest-download query) and the older upload
variant of `internal/agent/agent.py` as pure Lean functions, and proves the
specified properties about them.

Modelling conventions:
  * A Python coroutine that can raise an exception which escapes the function
    is embedded as a function into `Except Fault _`; `Except.error f` means
    the fault `f` propagated to the caller uncaught, while `Except.ok r`
    means the function returned the `ActionResult` envelope `r`.
  * Each fallible collaborator call (browser session, page, element handle,
    mkdir, save) is an injectable outcome recorded in a world/session
    structure, so theorems quantify over every possible fault.
  * The filesystem is a value `FS`: a list of directories and a list of
    regular-file entries (directory, name, size, mtime).  The primary
    embeddings read this structure totally, which is adequate for the
    claims about contents and control flow; for the fault-propagation
    claim the companion `_fx` embeddings additionally inject fault
    outcomes at the unguarded filesystem calls (`exists`, `iterdir`,
    `stat`), and agree with the primary embeddings when those calls
    succeed (`queryFx_ok_agrees`, `clickFx_ok_agrees`).
  * `os.path.abspath` is an uninterpreted parameter `abspath`; theorems
    quantify over it.
  * Python `st_mtime` floats are modelled as `Nat`; the ISO-8601 rendering
    of `modified_time_utc` is kept as the raw mtime value.
  * Session and handle calls made by an action are additionally recorded in
    an event trace (`SEvent`), which lets us state that the session is never
    touched on a rejected upload and that the click is dispatched while the
    download listener is armed.
-/

namespace Dropstep

/-- A Python exception: its type name (`type(e).__name__`) and message
(`str(e)`). -/
structure Fault where
  name : String
  msg : String
deriving Repr, DecidableEq

/-- Metadata of a regular file: `st_size` and `st_mtime`. -/
structure FileMeta where
  size : Nat
  mtime : Nat
deriving Repr, DecidableEq

/-- A regular file on disk: containing directory, file name, stat data. -/
structure FEntry where
  dir : String
  name : String
  meta : FileMeta
deriving Repr, DecidableEq

/-- The host filesystem: existing directories and regular files. -/
structure FS where
  dirs : List String
  files : List FEntry
deriving Repr, DecidableEq

/-- `Path.exists()` for a directory. -/
def FS.hasDir (fs : FS) (d : String) : Bool :=
  fs.dirs.contains d

/-- `Path.mkdir(parents=True, exist_ok=True)`: adds the directory, touches
no files. -/
def FS.mkdirParents (fs : FS) (d : String) : FS :=
  { fs with dirs := d :: fs.dirs }

/-- `[f for f in target_dir.iterdir() if f.is_file()]`: the regular files
directly in `d`, in (deterministic) enumeration order. -/
def filesInDir (fs : FS) (d : String) : List FEntry :=
  fs.files.filter (fun e => e.dir == d)

/-- Stat of the file `n` in directory `d`, `none` when it is not a regular
file there. -/
def FS.statOf (fs : FS) (d n : String) : Option FileMeta :=
  (fs.files.find? (fun e => e.dir == d && e.name == n)).map (fun e => e.meta)

/-- Writing a file: replaces the entry when present, appends it otherwise. -/
def FS.writeFile (fs : FS) (d n : String) (m : FileMeta) : FS :=
  if fs.files.any (fun e => e.dir == d && e.name == n) then
    ⟨fs.dirs, fs.files.map (fun e => if e.dir == d && e.name == n then ⟨d, n, m⟩ else e)⟩
  else
    ⟨fs.dirs, fs.files ++ [⟨d, n, m⟩]⟩

/-- The `file_info_payload` dictionary built by the download actions.
`modifiedTimeUtc` keeps the raw mtime; the source renders it in ISO-8601,
which is a bijective rendering we do not model. -/
structure DownloadRecord where
  actualDownloadedFilename : String
  downloadPath : String
  sizeBytes : Nat
  modifiedTimeUtc : Nat
  status : String
deriving Repr, DecidableEq

/-- The `browser_use.ActionResult` envelope as used by the source; the
pydantic default of `include_in_memory` is `False`. -/
structure ActionResult where
  extractedContent : Option String := none
  error : Option String := none
  payload : Option DownloadRecord := none
  includeInMemory : Bool := false
deriving Repr, DecidableEq

/-- `ActionResult(error=...)`. -/
def errResult (s : String) : ActionResult := { error := some s }

/-- `ActionResult(extracted_content=..., include_in_memory=True)`. -/
def okResult (s : String) : ActionResult :=
  { extractedContent := some s, includeInMemory := true }

/-- `ActionResult(extracted_content=...)` with the default
`include_in_memory=False`. -/
def okResultQuiet (s : String) : ActionResult :=
  { extractedContent := some s }

/-- `ActionResult(extracted_content=..., payload=..., include_in_memory=True)`. -/
def okPayloadResult (s : String) (p : DownloadRecord) : ActionResult :=
  { extractedContent := some s, payload := some p, includeInMemory := true }

/-- A single-quote character, kept out of string literals. -/
def sq : String := String.singleton (Char.ofNat 39)

/-- Python `repr` of a string at the precision we need: quote-wrapped. -/
def pyQuote (s : String) : String := sq ++ s ++ sq

/-- Python `str` of a list of strings, as interpolated by an f-string. -/
def pyStrList (l : List String) : String :=
  "[" ++ String.intercalate (", ") (l.map pyQuote) ++ "]"

/-- Events recording the calls an action performs against the browser
session, the element handle, the download listener and the disk. -/
inductive SEvent where
  | findEl
  | locateEl
  | setFiles
  | armWait
  | clickEl
  | closeWait
  | saveFile
deriving Repr, DecidableEq

/-- The browser-session behaviour visible to the upload actions:
the outcome of `find_file_upload_element_by_index` and of
`get_locate_element`.  A located handle is identified with the outcome its
`set_input_files` call would have (`get_locate_element` returning `None`
behaves like a handle whose attribute access raises, which the source
catches in the same `except`). -/
structure UploadSession where
  findFileUploadElementByIndex : Except Fault (Option Unit)
  getLocateElement : Except Fault (Except Fault Unit)
deriving Repr

/-- The allow-list test of `upload_file_action_impl`:
`os.path.abspath(path) in [os.path.abspath(p) for p in available_file_paths]`. -/
def uploadPathAllowed (abspath : String → String) (path : String)
    (available_file_paths : List String) : Bool :=
  (available_file_paths.map abspath).contains (abspath path)

/-- The allow-list test of the older `upload_file`:
`path in available_file_paths`, with no canonicalization. -/
def uploadPathAllowedOld (path : String)
    (available_file_paths : List String) : Bool :=
  available_file_paths.contains path

/-- The rejection message of `upload_file_action_impl`. -/
def uploadValidationMsg (path absPath : String) (absAllow : List String) : String :=
  "File path " ++ path ++ " (resolved: " ++ absPath ++
    ") is not in the allowed list: " ++ pyStrList absAllow

/-- `internal/agentassets/agent_scripts/actions.py`, `upload_file_action_impl`.
Returns the envelope (or the uncaught fault) together with the trace of
session/handle calls performed.  The calls at source lines 19 and 22 are
outside any `try`, so their faults propagate; only `set_input_files` is
guarded. -/
def upload_file_action_impl (index : Nat) (path : String)
    (abspath : String → String) (available_file_paths : List String)
    (s : UploadSession) : Except Fault ActionResult × List SEvent :=
  if uploadPathAllowed abspath path available_file_paths then
    match s.findFileUploadElementByIndex with
    | Except.error f => (Except.error f, [SEvent.findEl])
    | Except.ok none =>
        (Except.ok (errResult ("No file-upload element found at index " ++ toString index)),
          [SEvent.findEl])
    | Except.ok (some _) =>
        match s.getLocateElement with
        | Except.error f => (Except.error f, [SEvent.findEl, SEvent.locateEl])
        | Except.ok setFilesOutcome =>
            match setFilesOutcome with
            | Except.error f =>
                (Except.ok (errResult ("Failed to upload file “" ++ path ++ "” at index " ++
                    toString index ++ ": " ++ f.msg)),
                  [SEvent.findEl, SEvent.locateEl, SEvent.setFiles])
            | Except.ok _ =>
                (Except.ok (okResult ("Successfully uploaded file “" ++ path ++
                    "” to element at index " ++ toString index ++ ".")),
                  [SEvent.findEl, SEvent.locateEl, SEvent.setFiles])
  else
    (Except.ok (errResult (uploadValidationMsg path (abspath path)
        (available_file_paths.map abspath))), [])

/-- `internal/agent/agent.py`, `upload_file` (the older variant): raw
membership test, terser messages, success without `include_in_memory`. -/
def upload_file (index : Nat) (path : String)
    (available_file_paths : List String) (s : UploadSession) :
    Except Fault ActionResult × List SEvent :=
  if uploadPathAllowedOld path available_file_paths then
    match s.findFileUploadElementByIndex with
    | Except.error f => (Except.error f, [SEvent.findEl])
    | Except.ok none =>
        (Except.ok (errResult ("No file-upload element at index " ++ toString index)),
          [SEvent.findEl])
    | Except.ok (some _) =>
        match s.getLocateElement with
        | Except.error f => (Except.error f, [SEvent.findEl, SEvent.locateEl])
        | Except.ok setFilesOutcome =>
            match setFilesOutcome with
            | Except.error f =>
                (Except.ok (errResult f.msg),
                  [SEvent.findEl, SEvent.locateEl, SEvent.setFiles])
            | Except.ok _ =>
                (Except.ok (okResultQuiet ("Uploaded “" ++ path ++ "” at index " ++
                    toString index)),
                  [SEvent.findEl, SEvent.locateEl, SEvent.setFiles])
  else
    (Except.ok (errResult ("File path " ++ path ++ " is not in the allowed list")), [])

/-- The session state read by `get_last_downloaded_file_info_impl`:
`browser_profile.downloads_dir` (with `none` for a missing profile or
directory, and the empty string also falsy in the source test) and the
filesystem.  The query performs only filesystem reads. -/
structure QuerySession where
  downloadsDir : Option String
  fs : FS
deriving Repr

/-- Python `max(files, key=lambda f: f.stat().st_mtime)` on a nonempty
list: keeps the current best unless a later element is strictly greater,
hence ties resolve to the earliest element in enumeration order. -/
def pythonMaxByMtime (a : FEntry) (l : List FEntry) : FEntry :=
  l.foldl (fun best g => if best.meta.mtime < g.meta.mtime then g else best) a

/-- `"Browser download directory not configured in session profile."` -/
def dirNotConfiguredMsg : String :=
  "Browser download directory not configured in session profile."

/-- The `f"Target download directory '{target_dir}' does not exist."`
message of the latest-download query. -/
def dirMissingMsg (d : String) : String :=
  "Target download directory " ++ pyQuote d ++ " does not exist."

/-- The payload of the latest-download query:
`status = "confirmed_in_target_dir"`, path `target_dir / name` resolved. -/
def mkConfirmedRecord (d : String) (e : FEntry) : DownloadRecord :=
  ⟨e.name, d ++ "/" ++ e.name, e.meta.size, e.meta.mtime, "confirmed_in_target_dir"⟩

/-- `internal/agentassets/agent_scripts/actions.py`,
`get_last_downloaded_file_info_impl`.  Pure reads: the filesystem is
returned unchanged on every path.  The `except ValueError` guard around
`max` in the source is unreachable (the empty case returns first), so the
nonempty branch applies `max` directly.  Filesystem reads are total here;
the source's unguarded `exists`/`iterdir`/`stat` calls can raise `OSError`
uncaught, which is modelled by the companion
`get_last_downloaded_file_info_fx` below. -/
def get_last_downloaded_file_info_impl (w : QuerySession) : ActionResult × FS :=
  match w.downloadsDir with
  | none => (errResult dirNotConfiguredMsg, w.fs)
  | some d =>
    if d = "" then (errResult dirNotConfiguredMsg, w.fs)
    else if w.fs.hasDir d then
      match filesInDir w.fs d with
      | [] => (okResult ("No files found in the target download directory."), w.fs)
      | f :: rest =>
          (okPayloadResult ("Confirmed latest file in target download directory: " ++
              (pythonMaxByMtime f rest).name)
            (mkConfirmedRecord d (pythonMaxByMtime f rest)), w.fs)
    else (errResult (dirMissingMsg d), w.fs)

/-- Diagnostic data of a `DOMElementNode` used in the error messages of the
download action: `tag_name` and the `aria-label` attribute when present. -/
structure ElementInfo where
  tagName : String
  ariaLabel : Option String
deriving Repr, DecidableEq

/-- A Playwright download event: `suggested_filename`, `url`, and the
temporary path reported by `download.path()`. -/
structure Download where
  suggestedFilename : String
  url : String
  tempPath : String
deriving Repr, DecidableEq

/-- The world visible to `click_and_wait_for_download_impl`: the session
profile and filesystem, plus the injectable outcome of every collaborator
call it performs, in source order.  `saveOutcome` is the outcome of
`download.save_as`: a fault, or the file contents that end up at the target
path (`none` when the call returns without producing the file, the race the
source code re-checks for). -/
structure ClickWorld where
  downloadsDir : Option String
  fs : FS
  mkdirOutcome : Except Fault Unit
  page : Except Fault (Option Unit)
  stateSummary : Except Fault (Option (List (Nat × ElementInfo)))
  locateOutcome : Except Fault (Option Unit)
  textContentOutcome : Except Fault String
  clickOutcome : Except Fault Unit
  downloadEvent : Except Fault Download
  saveOutcome : Except Fault (Option FileMeta)

/-- `page.expect_download(timeout=30000)`: the download wait deadline in
milliseconds. -/
def downloadWaitTimeoutMs : Nat := 30000

/-- `element_handle.click(timeout=10000)`: the click deadline in
milliseconds. -/
def clickTimeoutMs : Nat := 10000

/-- The outer `except Exception` message of the download action; a download
wait that expires surfaces here with `f.name = "TimeoutError"`. -/
def clickDlErrMsg (i : Nat) (f : Fault) : String :=
  "Error during click and download for element index " ++ toString i ++ ": " ++
    f.name ++ " - " ++ f.msg

/-- The `except Exception as e_find` message of the element-finding block. -/
def findingErrMsg (i : Nat) (f : Fault) : String :=
  "Error finding/locating element at index " ++ toString i ++ ": " ++ f.msg

/-- The error returned when `index` is absent from the selector map.  The
source also prints the list of available indices, but only to stdout; the
returned message names just the requested index. -/
def indexNotFoundMsg (i : Nat) : String :=
  "Element with index " ++ toString i ++ " not found in current page" ++ sq ++
    "s interactive elements."

/-- The error returned when no live handle is obtainable for the element. -/
def noHandleMsg (i : Nat) (el : ElementInfo) : String :=
  "Could not get Playwright handle for element index " ++ toString i ++
    " (tag: " ++ el.tagName ++ ", label: " ++ el.ariaLabel.getD ("N/A") ++ ")."

/-- The error returned when the target directory cannot be created. -/
def mkdirFailedMsg (d : String) (f : Fault) : String :=
  "Target download directory " ++ pyQuote d ++
    " does not exist and could not be created: " ++ f.msg

/-- The error returned when the saved file is absent or empty at the target
path and the fallback re-check also fails. -/
def notProperlySavedMsg (d : String) (dl : Download) : String :=
  "File " ++ pyQuote dl.suggestedFilename ++ " not properly saved to " ++
    pyQuote (d ++ "/" ++ dl.suggestedFilename) ++
    ". It might be in Playwright" ++ sq ++ "s temp cache: " ++
    pyQuote dl.tempPath ++ " or download failed."

/-- The success content of the download action. -/
def savedOkMsg (d : String) (dl : Download) : String :=
  "Successfully downloaded and saved " ++ pyQuote dl.suggestedFilename ++
    " to " ++ pyQuote d ++ "."

/-- The payload of a successful download:
`status = "download_successful_and_saved"`, stats read from the final path. -/
def mkSavedRecord (d : String) (dl : Download) (m : FileMeta) : DownloadRecord :=
  ⟨dl.suggestedFilename, d ++ "/" ++ dl.suggestedFilename, m.size, m.mtime,
    "download_successful_and_saved"⟩

/-- The filesystem after `download.save_as`: the file is written exactly
when the call produced contents at the target path. -/
def applySave (fs : FS) (d : String) (dl : Download) (written : Option FileMeta) : FS :=
  match written with
  | some m => fs.writeFile d dl.suggestedFilename m
  | none => fs

/-- Source lines 157-181: re-stat the saved path; the fallback re-examines
the same `target_dir / suggested_filename` path, so in a single filesystem
snapshot it repeats the first check; absent or zero-size files fail, any
other stat succeeds with the size and mtime read from the final path. -/
def savedCheck (d : String) (dl : Download) (fs2 : FS) :
    Except Fault ActionResult × FS × List SEvent :=
  match fs2.statOf d dl.suggestedFilename with
  | none =>
      (Except.ok (errResult (notProperlySavedMsg d dl)), fs2,
        [SEvent.armWait, SEvent.clickEl, SEvent.closeWait, SEvent.saveFile])
  | some m =>
      if m.size == 0 then
        (Except.ok (errResult (notProperlySavedMsg d dl)), fs2,
          [SEvent.armWait, SEvent.clickEl, SEvent.closeWait, SEvent.saveFile])
      else
        (Except.ok (okPayloadResult (savedOkMsg d dl) (mkSavedRecord d dl m)), fs2,
          [SEvent.armWait, SEvent.clickEl, SEvent.closeWait, SEvent.saveFile])

/-- Source lines 133-185: the `async with page.expect_download(...)` block.
The listener is armed at entry to the block; `text_content` runs first with
its fault swallowed by the bare `except: pass`; the click is dispatched
inside the armed scope.  A fault from the click, the wait (timeout), or the
save is caught by the outer handler and wrapped into an error envelope. -/
def downloadPhase (i : Nat) (w : ClickWorld) (d : String) (fs1 : FS) :
    Except Fault ActionResult × FS × List SEvent :=
  match w.clickOutcome with
  | Except.error f =>
      (Except.ok (errResult (clickDlErrMsg i f)), fs1,
        [SEvent.armWait, SEvent.clickEl, SEvent.closeWait])
  | Except.ok _ =>
    match w.downloadEvent with
    | Except.error f =>
        (Except.ok (errResult (clickDlErrMsg i f)), fs1,
          [SEvent.armWait, SEvent.clickEl, SEvent.closeWait])
    | Except.ok dl =>
      match w.saveOutcome with
      | Except.error f =>
          (Except.ok (errResult (clickDlErrMsg i f)), fs1,
            [SEvent.armWait, SEvent.clickEl, SEvent.closeWait, SEvent.saveFile])
      | Except.ok written => savedCheck d dl (applySave fs1 d dl written)

/-- Source lines 84-130: the element-finding `try` block.  Any fault inside
it is caught by `except Exception as e_find`. -/
def findElementPhase (i : Nat) (w : ClickWorld) (d : String) (fs1 : FS) :
    Except Fault ActionResult × FS × List SEvent :=
  match w.stateSummary with
  | Except.error f => (Except.ok (errResult (findingErrMsg i f)), fs1, [])
  | Except.ok none =>
      (Except.ok (errResult ("Failed to get page state or no interactive elements found.")),
        fs1, [])
  | Except.ok (some m) =>
    if m.isEmpty then
      (Except.ok (errResult ("Failed to get page state or no interactive elements found.")),
        fs1, [])
    else
      match m.lookup i with
      | none => (Except.ok (errResult (indexNotFoundMsg i)), fs1, [])
      | some el =>
        match w.locateOutcome with
        | Except.error f => (Except.ok (errResult (findingErrMsg i f)), fs1, [])
        | Except.ok none => (Except.ok (errResult (noHandleMsg i el)), fs1, [])
        | Except.ok (some _) => downloadPhase i w d fs1

/-- Source lines 78-82: `browser_session.get_current_page()` is called
outside every `try`, so a fault from it propagates to the caller. -/
def pagePhase (i : Nat) (w : ClickWorld) (d : String) (fs1 : FS) :
    Except Fault ActionResult × FS × List SEvent :=
  match w.page with
  | Except.error f => (Except.error f, fs1, [])
  | Except.ok none =>
      (Except.ok (errResult ("No active page found in browser session.")), fs1, [])
  | Except.ok (some _) => findElementPhase i w d fs1

/-- `internal/agentassets/agent_scripts/actions.py`,
`click_and_wait_for_download_impl`: profile check, on-demand directory
creation (parents included), then page, element finding, and the armed
download wait.  The `target_dir.exists()` call at source line 69 is read
totally here; it sits outside every `try`, so its fault can escape, which
is modelled by the companion `click_and_wait_for_download_fx` below. -/
def click_and_wait_for_download_impl (i : Nat) (w : ClickWorld) :
    Except Fault ActionResult × FS × List SEvent :=
  match w.downloadsDir with
  | none => (Except.ok (errResult dirNotConfiguredMsg), w.fs, [])
  | some d =>
    if d = "" then (Except.ok (errResult dirNotConfiguredMsg), w.fs, [])
    else if w.fs.hasDir d then pagePhase i w d w.fs
    else
      match w.mkdirOutcome with
      | Except.error f => (Except.ok (errResult (mkdirFailedMsg d f)), w.fs, [])
      | Except.ok _ => pagePhase i w d (w.fs.mkdirParents d)

/-- Whether `n` is an initial segment of a character list. -/
def leadEq : List Char → List Char → Bool
  | [], _ => true
  | _ :: _, [] => false
  | a :: as, b :: bs => a == b && leadEq as bs

/-- Whether `n` occurs as a contiguous segment of a character list. -/
def subSeg (n : List Char) : List Char → Bool
  | [] => n.isEmpty
  | c :: t => leadEq n (c :: t) || subSeg n t

/-- Whether `needle` occurs inside `hay`. -/
def strContains (hay needle : String) : Bool :=
  subSeg needle.data hay.data

/-- Scanner for the armed-listener discipline: walks an event trace keeping
track of whether the download listener is armed, and demands that every
click event happens while it is. -/
def clickArmedScan : Bool → List SEvent → Bool
  | _, [] => true
  | _, SEvent.armWait :: t => clickArmedScan true t
  | _, SEvent.closeWait :: t => clickArmedScan false t
  | armed, SEvent.clickEl :: t => armed && clickArmedScan armed t
  | armed, _ :: t => clickArmedScan armed t

/-- The identity canonicalization: every path is already absolute and
normal. -/
def idStr : String → String := fun s => s

/-- A canonicalization example collapsing the relative form `./a` to `/a`,
as `os.path.abspath` does below the directory `/`. -/
def canonEx : String → String :=
  fun s => if s = ("./a") then ("/a") else s

/-- A session on which every upload collaborator call succeeds. -/
def sessionOk : UploadSession :=
  ⟨Except.ok (some ()), Except.ok (Except.ok ())⟩

/-- A session whose `find_file_upload_element_by_index` raises. -/
def sessionRaises : UploadSession :=
  ⟨Except.error ⟨("RuntimeError"), ("boom")⟩, Except.ok (Except.ok ())⟩

/-- A session that finds no file-upload element at the requested index. -/
def sessionNoEl : UploadSession :=
  ⟨Except.ok none, Except.ok (Except.ok ())⟩

/-- A diagnostic element. -/
def elA : ElementInfo := ⟨("a"), none⟩

/-- A download event for `f.txt`. -/
def dlA : Download := ⟨("f.txt"), ("http:u"), ("/tmp/x")⟩

/-- A query session over `/dl` holding files `a` (mtime 10) and `b`
(mtime 20). -/
def qw4 : QuerySession :=
  ⟨some ("/dl"), ⟨[("/dl")], [⟨("/dl"), ("a"), ⟨3, 10⟩⟩, ⟨("/dl"), ("b"), ⟨4, 20⟩⟩]⟩⟩

/-- A query session over `/dl` with the directory present and empty. -/
def qwEmpty : QuerySession := ⟨some ("/dl"), ⟨[("/dl")], []⟩⟩

/-- A query session whose configured directory `/dl` does not exist. -/
def qwMissing : QuerySession := ⟨some ("/dl"), ⟨[], []⟩⟩

/-- A click world in which every step succeeds and the saved file has 5
bytes. -/
def cwOk : ClickWorld :=
  ⟨some ("/dl"), ⟨[("/dl")], []⟩, Except.ok (), Except.ok (some ()),
    Except.ok (some [(2, elA)]), Except.ok (some ()), Except.ok ("x"),
    Except.ok (), Except.ok dlA, Except.ok (some ⟨5, 10⟩)⟩

/-- A click world whose download wait times out. -/
def cwTimeout : ClickWorld :=
  ⟨some ("/dl"), ⟨[("/dl")], [⟨("/dl"), ("old"), ⟨7, 3⟩⟩]⟩, Except.ok (),
    Except.ok (some ()), Except.ok (some [(2, elA)]), Except.ok (some ()),
    Except.ok ("x"), Except.ok (), Except.error ⟨("TimeoutError"), ("t")⟩,
    Except.ok none⟩

/-- A click world whose selector map holds only index 7. -/
def cwOnly7 : ClickWorld :=
  ⟨some ("/dl"), ⟨[("/dl")], []⟩, Except.ok (), Except.ok (some ()),
    Except.ok (some [(7, elA)]), Except.ok (some ()), Except.ok ("x"),
    Except.ok (), Except.error ⟨("TimeoutError"), ("t")⟩, Except.ok none⟩

/-- A click world over the missing directory `/dl`, with directory creation
succeeding and the later wait timing out. -/
def cwMkdir : ClickWorld :=
  ⟨some ("/dl"), ⟨[], []⟩, Except.ok (), Except.ok (some ()),
    Except.ok (some [(2, elA)]), Except.ok (some ()), Except.ok ("x"),
    Except.ok (), Except.error ⟨("TimeoutError"), ("t")⟩, Except.ok none⟩

/-- The latest-download query with its filesystem calls fault-injectable:
none of `target_dir.exists()`, `target_dir.iterdir()` and the `stat()`
calls is guarded in the source (the only guard is an `except ValueError`
around `max`), so an `OSError` from any of them escapes the action.
`existsOutcome`, `iterdirOutcome` and `statOutcome` are the outcomes of
those calls; when they all succeed the values read are those of `fs`. -/
structure QueryWorldFx where
  downloadsDir : Option String
  fs : FS
  existsOutcome : Except Fault Unit
  iterdirOutcome : Except Fault Unit
  statOutcome : Except Fault Unit

/-- `get_last_downloaded_file_info_impl` with fault injection at its
unguarded filesystem calls, in source order: profile check, then
`target_dir.exists()` (line 35, outside every `try`), then `iterdir`
(line 37, outside every `try`), then in the nonempty branch the `stat`
calls of the `max` key and of the payload (lines 41, 47-48, guarded only
against `ValueError`).  A fault at any of them propagates uncaught. -/
def get_last_downloaded_file_info_fx (q : QueryWorldFx) : Except Fault ActionResult :=
  match q.downloadsDir with
  | none => Except.ok (errResult dirNotConfiguredMsg)
  | some d =>
    if d = "" then Except.ok (errResult dirNotConfiguredMsg)
    else
      match q.existsOutcome with
      | Except.error f => Except.error f
      | Except.ok _ =>
        if q.fs.hasDir d then
          match q.iterdirOutcome with
          | Except.error f => Except.error f
          | Except.ok _ =>
            match filesInDir q.fs d with
            | [] => Except.ok (okResult ("No files found in the target download directory."))
            | f :: rest =>
              match q.statOutcome with
              | Except.error g => Except.error g
              | Except.ok _ =>
                  Except.ok (okPayloadResult
                    (("Confirmed latest file in target download directory: ") ++
                      (pythonMaxByMtime f rest).name)
                    (mkConfirmedRecord d (pythonMaxByMtime f rest)))
        else Except.ok (errResult (dirMissingMsg d))

/-- `click_and_wait_for_download_impl` with the outcome of the unguarded
`target_dir.exists()` call (source line 69, outside every `try`) injected:
a fault there propagates uncaught; on success the boolean read is
`fs.hasDir` and the rest of the action is unchanged. -/
def click_and_wait_for_download_fx (i : Nat) (w : ClickWorld)
    (existsOutcome : Except Fault Unit) :
    Except Fault ActionResult × FS × List SEvent :=
  match w.downloadsDir with
  | none => (Except.ok (errResult dirNotConfiguredMsg), w.fs, [])
  | some d =>
    if d = "" then (Except.ok (errResult dirNotConfiguredMsg), w.fs, [])
    else
      match existsOutcome with
      | Except.error f => (Except.error f, w.fs, [])
      | Except.ok _ =>
        if w.fs.hasDir d then pagePhase i w d w.fs
        else
          match w.mkdirOutcome with
          | Except.error f => (Except.ok (errResult (mkdirFailedMsg d f)), w.fs, [])
          | Except.ok _ => pagePhase i w d (w.fs.mkdirParents d)

/-- A query world whose filesystem reads all succeed, over the two-file
directory of `qw4`. -/
def qwFxOk : QueryWorldFx :=
  ⟨some ("/dl"), ⟨[("/dl")], [⟨("/dl"), ("a"), ⟨3, 10⟩⟩, ⟨("/dl"), ("b"), ⟨4, 20⟩⟩]⟩,
    Except.ok (), Except.ok (), Except.ok ()⟩

/-- A query world whose `exists()` call raises. -/
def qwExistsFault : QueryWorldFx :=
  ⟨some ("/dl"), ⟨[("/dl")], []⟩, Except.error ⟨("OSError"), ("denied")⟩,
    Except.ok (), Except.ok ()⟩

/-- A query world over an existing directory whose `iterdir()` call raises. -/
def qwIterFault : QueryWorldFx :=
  ⟨some ("/dl"), ⟨[("/dl")], []⟩, Except.ok (),
    Except.error ⟨("OSError"), ("denied")⟩, Except.ok ()⟩

/-- A query world over an existing nonempty directory whose `stat()` call
raises (not a `ValueError`, so nothing catches it). -/
def qwStatFault : QueryWorldFx :=
  ⟨some ("/dl"), ⟨[("/dl")], [⟨("/dl"), ("a"), ⟨3, 10⟩⟩]⟩, Except.ok (),
    Except.ok (), Except.error ⟨("FileNotFoundError"), ("gone")⟩⟩

theorem string_data_append (s t : String) : (s ++ t).data = s.data ++ t.data := rfl

theorem leadEq_append (n b : List Char) : leadEq n (n ++ b) = true := by
  induction n with
  | nil => rfl
  | cons a as ih => simp [leadEq, ih]

theorem leadEq_self (n : List Char) : leadEq n n = true := by
  induction n with
  | nil => rfl
  | cons a as ih => simp [leadEq, ih]

theorem subSeg_self_append (n b : List Char) : subSeg n (n ++ b) = true := by
  cases n with
  | nil => cases b <;> simp [subSeg, leadEq]
  | cons x xs =>
      show subSeg (x :: xs) (x :: (xs ++ b)) = true
      have h : leadEq (x :: xs) (x :: (xs ++ b)) = true := leadEq_append (x :: xs) b
      simp [subSeg, h]

theorem subSeg_self (n : List Char) : subSeg n n = true := by
  cases n with
  | nil => rfl
  | cons x xs => simp [subSeg, leadEq_self]

theorem subSeg_append_left (n : List Char) (a : List Char) {l : List Char}
    (h : subSeg n l = true) : subSeg n (a ++ l) = true := by
  induction a with
  | nil => simpa using h
  | cons c t ih => simp [subSeg, ih]

theorem strContains_append_left (s : String) {t n : String}
    (h : strContains t n = true) : strContains (s ++ t) n = true := by
  unfold strContains at h ⊢
  rw [string_data_append]
  exact subSeg_append_left n.data s.data h

theorem strContains_self_append (n y : String) : strContains (n ++ y) n = true := by
  unfold strContains
  rw [string_data_append]
  exact subSeg_self_append n.data y.data

theorem strContains_self (n : String) : strContains n n = true :=
  subSeg_self n.data

theorem pythonMax_step (a g : FEntry) (t : List FEntry) :
    pythonMaxByMtime a (g :: t) =
      pythonMaxByMtime (if a.meta.mtime < g.meta.mtime then g else a) t := rfl

theorem pythonMax_mem (a : FEntry) (l : List FEntry) :
    pythonMaxByMtime a l ∈ a :: l := by
  induction l generalizing a with
  | nil => simp [pythonMaxByMtime]
  | cons g t ih =>
      rw [pythonMax_step]
      have h := ih (if a.meta.mtime < g.meta.mtime then g else a)
      rcases List.mem_cons.mp h with h1 | h1
      · rw [h1]
        split
        · simp
        · simp
      · simp [List.mem_cons_of_mem, h1]

theorem pythonMax_ge (a : FEntry) (l : List FEntry) :
    ∀ x ∈ a :: l, x.meta.mtime ≤ (pythonMaxByMtime a l).meta.mtime := by
  induction l generalizing a with
  | nil =>
      intro x hx
      simp at hx
      subst hx
      exact Nat.le_refl _
  | cons g t ih =>
      intro x hx
      by_cases hc : a.meta.mtime < g.meta.mtime
      · have e : pythonMaxByMtime a (g :: t) = pythonMaxByMtime g t := by
          rw [pythonMax_step, if_pos hc]
        rw [e]
        rcases List.mem_cons.mp hx with h1 | h1
        · subst h1
          exact Nat.le_of_lt (Nat.lt_of_lt_of_le hc
            (ih g g (List.mem_cons_self g t)))
        · exact ih g x h1
      · have e : pythonMaxByMtime a (g :: t) = pythonMaxByMtime a t := by
          rw [pythonMax_step, if_neg hc]
        rw [e]
        rcases List.mem_cons.mp hx with h1 | h1
        · rw [h1]
          exact ih a a (List.mem_cons_self a t)
        rcases List.mem_cons.mp h1 with h2 | h2
        · rw [h2]
          exact Nat.le_trans (Nat.le_of_not_lt hc) (ih a a (List.mem_cons_self a t))
        · exact ih a x (List.mem_cons_of_mem a h2)

theorem pythonMax_first (a : FEntry) (l : List FEntry) :
    ∃ l1 l2, a :: l = l1 ++ pythonMaxByMtime a l :: l2 ∧
      ∀ x ∈ l1, x.meta.mtime < (pythonMaxByMtime a l).meta.mtime := by
  induction l generalizing a with
  | nil => exact ⟨[], [], by simp [pythonMaxByMtime], by simp⟩
  | cons g t ih =>
      by_cases hc : a.meta.mtime < g.meta.mtime
      · have e : pythonMaxByMtime a (g :: t) = pythonMaxByMtime g t := by
          rw [pythonMax_step, if_pos hc]
        rw [e]
        obtain ⟨l1, l2, hdec, hlt⟩ := ih g
        refine ⟨a :: l1, l2, ?_, ?_⟩
        · simp [hdec]
        · intro x hx
          rcases List.mem_cons.mp hx with h1 | h1
          · rw [h1]
            exact Nat.lt_of_lt_of_le hc (pythonMax_ge g t g (List.mem_cons_self g t))
          · exact hlt x h1
      · have e : pythonMaxByMtime a (g :: t) = pythonMaxByMtime a t := by
          rw [pythonMax_step, if_neg hc]
        rw [e]
        obtain ⟨l1, l2, hdec, hlt⟩ := ih a
        cases l1 with
        | nil =>
            simp at hdec
            refine ⟨[], g :: t, ?_, by simp⟩
            rw [← hdec.1]
            rfl
        | cons c l1x =>
            rw [List.cons_append] at hdec
            injection hdec with hac ht
            refine ⟨a :: g :: l1x, l2, ?_, ?_⟩
            · conv_lhs => rw [ht]
              simp
            · intro x hx
              have hcM : a.meta.mtime < (pythonMaxByMtime a t).meta.mtime := by
                have h0 := hlt c (List.mem_cons_self c l1x)
                rw [← hac] at h0
                exact h0
              rcases List.mem_cons.mp hx with h1 | h1
              · rw [h1]
                exact hcM
              rcases List.mem_cons.mp h1 with h2 | h2
              · rw [h2]
                exact Nat.lt_of_le_of_lt (Nat.le_of_not_lt hc) hcM
              · exact hlt x (List.mem_cons_of_mem c h2)

@[simp] theorem errResult_payload (s : String) : (errResult s).payload = none := rfl

@[simp] theorem errResult_error (s : String) : (errResult s).error = some s := rfl

@[simp] theorem okResult_error (s : String) : (okResult s).error = none := rfl

@[simp] theorem okResult_payload (s : String) : (okResult s).payload = none := rfl

theorem FS.writeFile_dirs (fs : FS) (d n : String) (m : FileMeta) :
    (fs.writeFile d n m).dirs = fs.dirs := by
  unfold FS.writeFile
  split <;> rfl

theorem applySave_dirs (fs : FS) (d : String) (dl : Download) (w : Option FileMeta) :
    (applySave fs d dl w).dirs = fs.dirs := by
  cases w with
  | none => rfl
  | some m => exact FS.writeFile_dirs fs d dl.suggestedFilename m

theorem savedCheck_dirs (d : String) (dl : Download) (fs2 : FS) :
    (savedCheck d dl fs2).2.1.dirs = fs2.dirs := by
  unfold savedCheck
  split
  · rfl
  · split <;> rfl

theorem downloadPhase_dirs (i : Nat) (w : ClickWorld) (d : String) (fs1 : FS) :
    (downloadPhase i w d fs1).2.1.dirs = fs1.dirs := by
  unfold downloadPhase
  split
  · rfl
  split
  · rfl
  split
  · rfl
  rw [savedCheck_dirs, applySave_dirs]

theorem findElementPhase_dirs (i : Nat) (w : ClickWorld) (d : String) (fs1 : FS) :
    (findElementPhase i w d fs1).2.1.dirs = fs1.dirs := by
  unfold findElementPhase
  split
  · rfl
  · rfl
  split
  · rfl
  split
  · rfl
  split
  · rfl
  · rfl
  exact downloadPhase_dirs ..

theorem pagePhase_dirs (i : Nat) (w : ClickWorld) (d : String) (fs1 : FS) :
    (pagePhase i w d fs1).2.1.dirs = fs1.dirs := by
  unfold pagePhase
  split
  · rfl
  · rfl
  exact findElementPhase_dirs ..

theorem savedCheck_isOk (d : String) (dl : Download) (fs2 : FS) :
    (savedCheck d dl fs2).1.isOk = true := by
  unfold savedCheck
  split
  · rfl
  · split <;> rfl

theorem downloadPhase_isOk (i : Nat) (w : ClickWorld) (d : String) (fs1 : FS) :
    (downloadPhase i w d fs1).1.isOk = true := by
  unfold downloadPhase
  split
  · rfl
  split
  · rfl
  split
  · rfl
  exact savedCheck_isOk ..

theorem findElementPhase_isOk (i : Nat) (w : ClickWorld) (d : String) (fs1 : FS) :
    (findElementPhase i w d fs1).1.isOk = true := by
  unfold findElementPhase
  split
  · rfl
  · rfl
  split
  · rfl
  split
  · rfl
  split
  · rfl
  · rfl
  exact downloadPhase_isOk ..

theorem pagePhase_isOk (i : Nat) (w : ClickWorld) (d : String) (fs1 : FS)
    (hp : w.page.isOk = true) : (pagePhase i w d fs1).1.isOk = true := by
  unfold pagePhase
  cases h : w.page with
  | error f => rw [h] at hp; exact Bool.noConfusion hp
  | ok p =>
      cases p with
      | none => rfl
      | some u => exact findElementPhase_isOk ..

theorem errResult_no_payload {s : String} {r : ActionResult} {rec : DownloadRecord}
    (h : (Except.ok (errResult s) : Except Fault ActionResult) = Except.ok r)
    (hp : r.payload = some rec) : False := by
  injection h with h
  rw [← h] at hp
  simp at hp

theorem savedCheck_payload (d : String) (dl : Download) (fs2 : FS) :
    ∀ r rec, (savedCheck d dl fs2).1 = Except.ok r → r.payload = some rec →
      rec.status = ("download_successful_and_saved") ∧ 0 < rec.sizeBytes := by
  unfold savedCheck
  split
  · intro r rec h hp
    exact (errResult_no_payload h hp).elim
  split
  · intro r rec h hp
    exact (errResult_no_payload h hp).elim
  · intro r rec h hp
    injection h with h
    rw [← h] at hp
    simp only [okPayloadResult] at hp
    injection hp with hp
    rw [← hp]
    refine ⟨rfl, ?_⟩
    rename_i hsz
    simp only [mkSavedRecord]
    simp at hsz
    exact Nat.pos_of_ne_zero hsz

theorem downloadPhase_payload (i : Nat) (w : ClickWorld) (d : String) (fs1 : FS) :
    ∀ r rec, (downloadPhase i w d fs1).1 = Except.ok r → r.payload = some rec →
      rec.status = ("download_successful_and_saved") ∧ 0 < rec.sizeBytes := by
  unfold downloadPhase
  split
  · intro r rec h hp
    exact (errResult_no_payload h hp).elim
  split
  · intro r rec h hp
    exact (errResult_no_payload h hp).elim
  split
  · intro r rec h hp
    exact (errResult_no_payload h hp).elim
  exact savedCheck_payload _ _ _

theorem findElementPhase_payload (i : Nat) (w : ClickWorld) (d : String) (fs1 : FS) :
    ∀ r rec, (findElementPhase i w d fs1).1 = Except.ok r → r.payload = some rec →
      rec.status = ("download_successful_and_saved") ∧ 0 < rec.sizeBytes := by
  unfold findElementPhase
  split
  · intro r rec h hp
    exact (errResult_no_payload h hp).elim
  · intro r rec h hp
    exact (errResult_no_payload h hp).elim
  split
  · intro r rec h hp
    exact (errResult_no_payload h hp).elim
  split
  · intro r rec h hp
    exact (errResult_no_payload h hp).elim
  split
  · intro r rec h hp
    exact (errResult_no_payload h hp).elim
  · intro r rec h hp
    exact (errResult_no_payload h hp).elim
  exact downloadPhase_payload _ _ _ _

theorem pagePhase_payload (i : Nat) (w : ClickWorld) (d : String) (fs1 : FS) :
    ∀ r rec, (pagePhase i w d fs1).1 = Except.ok r → r.payload = some rec →
      rec.status = ("download_successful_and_saved") ∧ 0 < rec.sizeBytes := by
  unfold pagePhase
  split
  · intro r rec h hp
    exact absurd h (by simp)
  · intro r rec h hp
    exact (errResult_no_payload h hp).elim
  exact findElementPhase_payload _ _ _ _

theorem savedCheck_trace (d : String) (dl : Download) (fs2 : FS) :
    (savedCheck d dl fs2).2.2 =
      [SEvent.armWait, SEvent.clickEl, SEvent.closeWait, SEvent.saveFile] := by
  unfold savedCheck
  split
  · rfl
  · split <;> rfl

theorem downloadPhase_scan (i : Nat) (w : ClickWorld) (d : String) (fs1 : FS) :
    clickArmedScan false (downloadPhase i w d fs1).2.2 = true := by
  unfold downloadPhase
  split
  · rfl
  split
  · rfl
  split
  · rfl
  rw [savedCheck_trace]
  rfl

theorem findElementPhase_scan (i : Nat) (w : ClickWorld) (d : String) (fs1 : FS) :
    clickArmedScan false (findElementPhase i w d fs1).2.2 = true := by
  unfold findElementPhase
  split
  · rfl
  · rfl
  split
  · rfl
  split
  · rfl
  split
  · rfl
  · rfl
  exact downloadPhase_scan ..

theorem pagePhase_scan (i : Nat) (w : ClickWorld) (d : String) (fs1 : FS) :
    clickArmedScan false (pagePhase i w d fs1).2.2 = true := by
  unfold pagePhase
  split
  · rfl
  · rfl
  exact findElementPhase_scan ..

theorem uploadPathAllowed_iff (abspath : String → String) (path : String)
    (allow : List String) :
    uploadPathAllowed abspath path allow = true ↔
      ∃ p ∈ allow, abspath p = abspath path := by
  unfold uploadPathAllowed
  constructor
  · intro h
    obtain ⟨p, hp, he⟩ := List.mem_map.mp (List.elem_iff.mp h)
    exact ⟨p, hp, he⟩
  · rintro ⟨p, hp, he⟩
    exact List.elem_iff.mpr (List.mem_map.mpr ⟨p, hp, he⟩)

theorem query_fs_unchanged (q : QuerySession) :
    (get_last_downloaded_file_info_impl q).2 = q.fs := by
  unfold get_last_downloaded_file_info_impl
  split
  · rfl
  split
  · rfl
  split
  · split <;> rfl
  · rfl

theorem click_reaches_pagePhase (i : Nat) (w : ClickWorld) (d : String)
    (hd : w.downloadsDir = some d) (hne : d ≠ "")
    (hmk : w.fs.hasDir d = true ∨ w.mkdirOutcome = Except.ok ()) :
    click_and_wait_for_download_impl i w = pagePhase i w d w.fs ∨
    click_and_wait_for_download_impl i w = pagePhase i w d (w.fs.mkdirParents d) := by
  by_cases hdir : w.fs.hasDir d = true
  · left
    unfold click_and_wait_for_download_impl
    rw [hd]
    simp [hne, hdir]
  · right
    have hmk2 : w.mkdirOutcome = Except.ok () := by
      rcases hmk with h | h
      · exact absurd h hdir
      · exact h
    unfold click_and_wait_for_download_impl
    rw [hd, hmk2]
    simp [hne, hdir]

theorem pagePhase_timeout (i : Nat) (w : ClickWorld) (d : String) (fs1 : FS)
    (m : List (Nat × ElementInfo)) (el : ElementInfo) (emsg : String)
    (hp : w.page = Except.ok (some ()))
    (hs : w.stateSummary = Except.ok (some m))
    (hm : m.isEmpty = false)
    (hel : m.lookup i = some el)
    (hloc : w.locateOutcome = Except.ok (some ()))
    (hclk : w.clickOutcome = Except.ok ())
    (hto : w.downloadEvent = Except.error ⟨("TimeoutError"), emsg⟩) :
    pagePhase i w d fs1 =
      (Except.ok (errResult (clickDlErrMsg i ⟨("TimeoutError"), emsg⟩)), fs1,
        [SEvent.armWait, SEvent.clickEl, SEvent.closeWait]) := by
  unfold pagePhase findElementPhase downloadPhase
  simp [hp, hs, hm, hel, hloc, hclk, hto]

theorem pagePhase_indexNotFound (i : Nat) (w : ClickWorld) (d : String) (fs1 : FS)
    (m : List (Nat × ElementInfo))
    (hp : w.page = Except.ok (some ()))
    (hs : w.stateSummary = Except.ok (some m))
    (hm : m.isEmpty = false)
    (habs : m.lookup i = none) :
    pagePhase i w d fs1 = (Except.ok (errResult (indexNotFoundMsg i)), fs1, []) := by
  unfold pagePhase findElementPhase
  simp [hp, hs, hm, habs]

theorem upload_isOk (i : Nat) (path : String) (abspath : String → String)
    (allow : List String) (s : UploadSession)
    (hf : s.findFileUploadElementByIndex.isOk = true)
    (hl : s.getLocateElement.isOk = true) :
    (upload_file_action_impl i path abspath allow s).1.isOk = true := by
  unfold upload_file_action_impl
  split
  · cases hff : s.findFileUploadElementByIndex with
    | error f => rw [hff] at hf; exact Bool.noConfusion hf
    | ok o =>
        cases o with
        | none => simp [hff, Except.isOk, Except.toBool]
        | some u =>
            cases hll : s.getLocateElement with
            | error f => rw [hll] at hl; exact Bool.noConfusion hl
            | ok so => cases so <;> simp [hff, hll, Except.isOk, Except.toBool]
  · rfl

theorem click_isOk (i : Nat) (w : ClickWorld) (hp : w.page.isOk = true) :
    (click_and_wait_for_download_impl i w).1.isOk = true := by
  unfold click_and_wait_for_download_impl
  split
  · rfl
  split
  · rfl
  split
  · exact pagePhase_isOk _ _ _ _ hp
  split
  · rfl
  · exact pagePhase_isOk _ _ _ _ hp

theorem click_payload (i : Nat) (w : ClickWorld) :
    ∀ r rec, (click_and_wait_for_download_impl i w).1 = Except.ok r →
      r.payload = some rec →
      rec.status = ("download_successful_and_saved") ∧ 0 < rec.sizeBytes := by
  unfold click_and_wait_for_download_impl
  split
  · intro r rec h hpl
    exact (errResult_no_payload h hpl).elim
  split
  · intro r rec h hpl
    exact (errResult_no_payload h hpl).elim
  split
  · exact pagePhase_payload _ _ _ _
  split
  · intro r rec h hpl
    exact (errResult_no_payload h hpl).elim
  · exact pagePhase_payload _ _ _ _

/-- C2: for every path whose canonical absolute form is not equal to the
canonical absolute form of any allow-list entry, the upload action returns
the validation-error envelope and performs zero calls on the browser
session (its session-call trace is empty). -/
theorem c2_unauthorized_path_rejected_before_session (i : Nat) (path : String)
    (abspath : String → String) (allow : List String) (s : UploadSession)
    (h : ∀ p ∈ allow, abspath p ≠ abspath path) :
    upload_file_action_impl i path abspath allow s =
      (Except.ok (errResult (uploadValidationMsg path (abspath path) (allow.map abspath))),
        []) := by
  have hc : uploadPathAllowed abspath path allow = false := by
    cases hcc : uploadPathAllowed abspath path allow
    · rfl
    · obtain ⟨p, hp, he⟩ := (uploadPathAllowed_iff abspath path allow).mp hcc
      exact absurd he (h p hp)
  unfold upload_file_action_impl
  simp [hc]

/-- Witness for C2 at a concrete rejected path. -/
theorem c2_witness :
    (∀ p ∈ [("/a")], idStr p ≠ idStr ("/b")) ∧
    upload_file_action_impl 1 ("/b") idStr [("/a")] sessionOk =
      (Except.ok (errResult (uploadValidationMsg ("/b") ("/b") [("/a")])), []) :=
  ⟨by decide,
    c2_unauthorized_path_rejected_before_session 1 ("/b") idStr [("/a")] sessionOk
      (by decide)⟩

/-- C4: over a directory holding at least one regular file, the
latest-download query returns a payload whose file has the maximal
modification time among the directory files (ties broken by enumeration
order: everything before the selected entry is strictly older), with
status confirmed_in_target_dir and no error. -/
theorem c4_latest_selects_max_mtime (w : QuerySession) (d : String)
    (hd : w.downloadsDir = some d) (hne : d ≠ "")
    (hdir : w.fs.hasDir d = true) (hnon : filesInDir w.fs d ≠ []) :
    ∃ e l1 l2,
      filesInDir w.fs d = l1 ++ e :: l2 ∧
      (∀ x ∈ l1, x.meta.mtime < e.meta.mtime) ∧
      (∀ x ∈ filesInDir w.fs d, x.meta.mtime ≤ e.meta.mtime) ∧
      (get_last_downloaded_file_info_impl w).1 =
        okPayloadResult (("Confirmed latest file in target download directory: ") ++ e.name)
          (mkConfirmedRecord d e) ∧
      (mkConfirmedRecord d e).status = ("confirmed_in_target_dir") ∧
      (mkConfirmedRecord d e).modifiedTimeUtc = e.meta.mtime ∧
      (get_last_downloaded_file_info_impl w).1.error = none := by
  cases hfi : filesInDir w.fs d with
  | nil => exact absurd hfi hnon
  | cons f rest =>
      have hres : (get_last_downloaded_file_info_impl w).1 =
          okPayloadResult (("Confirmed latest file in target download directory: ") ++
              (pythonMaxByMtime f rest).name)
            (mkConfirmedRecord d (pythonMaxByMtime f rest)) := by
        unfold get_last_downloaded_file_info_impl
        rw [hd]
        simp [hne, hdir, hfi]
      obtain ⟨l1, l2, hdec, hlt⟩ := pythonMax_first f rest
      refine ⟨pythonMaxByMtime f rest, l1, l2, ?_, hlt, ?_, hres, rfl, rfl, ?_⟩
      · exact hdec
      · intro x hx
        exact pythonMax_ge f rest x hx
      · rw [hres]
        rfl

/-- Witness for C4 on a directory with files of mtimes 10 and 20. -/
theorem c4_witness :
    ∃ e l1 l2,
      filesInDir qw4.fs ("/dl") = l1 ++ e :: l2 ∧
      (∀ x ∈ l1, x.meta.mtime < e.meta.mtime) ∧
      (∀ x ∈ filesInDir qw4.fs ("/dl"), x.meta.mtime ≤ e.meta.mtime) ∧
      (get_last_downloaded_file_info_impl qw4).1 =
        okPayloadResult (("Confirmed latest file in target download directory: ") ++ e.name)
          (mkConfirmedRecord ("/dl") e) ∧
      (mkConfirmedRecord ("/dl") e).status = ("confirmed_in_target_dir") ∧
      (mkConfirmedRecord ("/dl") e).modifiedTimeUtc = e.meta.mtime ∧
      (get_last_downloaded_file_info_impl qw4).1.error = none :=
  c4_latest_selects_max_mtime qw4 ("/dl") rfl (by decide) rfl (by decide)

/-- C6: over an existing directory with zero regular files, the
latest-download query returns the non-error "no files found" envelope,
never an error. -/
theorem c6_empty_dir_non_error (w : QuerySession) (d : String)
    (hd : w.downloadsDir = some d) (hne : d ≠ "")
    (hdir : w.fs.hasDir d = true) (hempty : filesInDir w.fs d = []) :
    get_last_downloaded_file_info_impl w =
      (okResult ("No files found in the target download directory."), w.fs) ∧
    (get_last_downloaded_file_info_impl w).1.error = none := by
  have hres : get_last_downloaded_file_info_impl w =
      (okResult ("No files found in the target download directory."), w.fs) := by
    unfold get_last_downloaded_file_info_impl
    rw [hd]
    simp [hne, hdir, hempty]
  refine ⟨hres, ?_⟩
  rw [hres]
  rfl

/-- Witness for C6 on an existing empty directory. -/
theorem c6_witness :
    get_last_downloaded_file_info_impl qwEmpty =
      (okResult ("No files found in the target download directory."), qwEmpty.fs) ∧
    (get_last_downloaded_file_info_impl qwEmpty).1.error = none :=
  c6_empty_dir_non_error qwEmpty ("/dl") rfl (by decide) rfl rfl

/-- C10: with the configured downloads directory missing on disk, the
latest-download query returns an error envelope and leaves the filesystem
unchanged, while the click-and-confirm-download action creates the missing
directory (with parents) before proceeding. -/
theorem c10_missing_dir_query_errors_click_creates (q : QuerySession)
    (w : ClickWorld) (d : String) (i : Nat)
    (hq : q.downloadsDir = some d) (hw : w.downloadsDir = some d)
    (hne : d ≠ "") (hmiss : q.fs.hasDir d = false) (hsame : w.fs = q.fs)
    (hmk : w.mkdirOutcome = Except.ok ()) :
    get_last_downloaded_file_info_impl q = (errResult (dirMissingMsg d), q.fs) ∧
    d ∈ ((click_and_wait_for_download_impl i w).2.1).dirs := by
  constructor
  · unfold get_last_downloaded_file_info_impl
    rw [hq]
    simp [hne, hmiss]
  · have e : click_and_wait_for_download_impl i w =
        pagePhase i w d (w.fs.mkdirParents d) := by
      unfold click_and_wait_for_download_impl
      rw [hw, hmk]
      simp [hne, hsame, hmiss]
    rw [e, pagePhase_dirs]
    exact List.mem_cons_self _ _

/-- Witness for C10 with `/dl` absent from the filesystem. -/
theorem c10_witness :
    get_last_downloaded_file_info_impl qwMissing =
      (errResult (dirMissingMsg ("/dl")), qwMissing.fs) ∧
    ("/dl") ∈ ((click_and_wait_for_download_impl 2 cwMkdir).2.1).dirs :=
  c10_missing_dir_query_errors_click_creates qwMissing cwMkdir ("/dl") 2
    rfl rfl (by decide) rfl rfl rfl

/-- C3: when the download wait expires with no download event after the
click, the action returns the TimeoutError envelope and the file set of the
target directory is unchanged from before the call; the wait deadline is
the 30000 ms default. -/
theorem c3_timeout_envelope_files_unchanged (i : Nat) (w : ClickWorld) (d : String)
    (m : List (Nat × ElementInfo)) (el : ElementInfo) (emsg : String)
    (hd : w.downloadsDir = some d) (hne : d ≠ "")
    (hmk : w.fs.hasDir d = true ∨ w.mkdirOutcome = Except.ok ())
    (hp : w.page = Except.ok (some ()))
    (hs : w.stateSummary = Except.ok (some m))
    (hm : m.isEmpty = false)
    (hel : m.lookup i = some el)
    (hloc : w.locateOutcome = Except.ok (some ()))
    (hclk : w.clickOutcome = Except.ok ())
    (hto : w.downloadEvent = Except.error ⟨("TimeoutError"), emsg⟩) :
    (click_and_wait_for_download_impl i w).1 =
      Except.ok (errResult (clickDlErrMsg i ⟨("TimeoutError"), emsg⟩)) ∧
    filesInDir (click_and_wait_for_download_impl i w).2.1 d = filesInDir w.fs d ∧
    strContains (clickDlErrMsg i ⟨("TimeoutError"), emsg⟩) ("TimeoutError") = true ∧
    downloadWaitTimeoutMs = 30000 := by
  have hcontains :
      strContains (clickDlErrMsg i ⟨("TimeoutError"), emsg⟩) ("TimeoutError") = true := by
    unfold clickDlErrMsg
    simp only [String.append_assoc]
    refine strContains_append_left _ ?_
    refine strContains_append_left _ ?_
    refine strContains_append_left _ ?_
    exact strContains_self_append _ _
  rcases click_reaches_pagePhase i w d hd hne hmk with e | e <;>
    rw [e, pagePhase_timeout i w d _ m el emsg hp hs hm hel hloc hclk hto] <;>
    exact ⟨rfl, rfl, hcontains, rfl⟩

/-- Witness for C3 with a concrete timed-out world holding one old file. -/
theorem c3_witness :
    (click_and_wait_for_download_impl 2 cwTimeout).1 =
      Except.ok (errResult (clickDlErrMsg 2 ⟨("TimeoutError"), ("t")⟩)) ∧
    filesInDir (click_and_wait_for_download_impl 2 cwTimeout).2.1 ("/dl") =
      filesInDir cwTimeout.fs ("/dl") ∧
    strContains (clickDlErrMsg 2 ⟨("TimeoutError"), ("t")⟩) ("TimeoutError") = true ∧
    downloadWaitTimeoutMs = 30000 :=
  c3_timeout_envelope_files_unchanged 2 cwTimeout ("/dl") [(2, elA)] elA ("t")
    rfl (by decide) (Or.inl rfl) rfl rfl rfl rfl rfl rfl rfl

/-- C7: in the click-and-confirm-download action, every click event in the
call trace is dispatched while the download-event listener is armed: the
trace passes the armed-listener scan started in the unarmed state. -/
theorem c7_click_dispatched_while_armed (i : Nat) (w : ClickWorld) :
    clickArmedScan false (click_and_wait_for_download_impl i w).2.2 = true := by
  unfold click_and_wait_for_download_impl
  split
  · rfl
  split
  · rfl
  split
  · exact pagePhase_scan ..
  split
  · rfl
  · exact pagePhase_scan ..

/-- C8: every payload the click-and-confirm-download action returns with
status download_successful_and_saved has size strictly greater than zero. -/
theorem c8_saved_payload_size_positive (i : Nat) (w : ClickWorld)
    (r : ActionResult) (rec : DownloadRecord)
    (h : (click_and_wait_for_download_impl i w).1 = Except.ok r)
    (hpl : r.payload = some rec)
    (_hst : rec.status = ("download_successful_and_saved")) :
    0 < rec.sizeBytes :=
  (click_payload i w r rec h hpl).2

/-- Witness for C8 on a fully successful download of a 5-byte file. -/
theorem c8_witness :
    (click_and_wait_for_download_impl 2 cwOk).1 =
      Except.ok (okPayloadResult (savedOkMsg ("/dl") dlA)
        (mkSavedRecord ("/dl") dlA ⟨5, 10⟩)) ∧
    (okPayloadResult (savedOkMsg ("/dl") dlA)
        (mkSavedRecord ("/dl") dlA ⟨5, 10⟩)).payload =
      some (mkSavedRecord ("/dl") dlA ⟨5, 10⟩) ∧
    (mkSavedRecord ("/dl") dlA ⟨5, 10⟩).status = ("download_successful_and_saved") ∧
    0 < (mkSavedRecord ("/dl") dlA ⟨5, 10⟩).sizeBytes :=
  ⟨rfl, rfl, rfl,
    c8_saved_payload_size_positive 2 cwOk
      (okPayloadResult (savedOkMsg ("/dl") dlA) (mkSavedRecord ("/dl") dlA ⟨5, 10⟩))
      (mkSavedRecord ("/dl") dlA ⟨5, 10⟩) rfl rfl rfl⟩

/-- C1 counterexample: a session fault raised by
`find_file_upload_element_by_index` inside the upload action propagates to
the caller as an uncaught fault instead of being mapped to an error
envelope - the call sits outside every `try` block (source lines 19-22). -/
theorem c1_counterexample :
    (upload_file_action_impl 3 ("/a") idStr [("/a")] sessionRaises).1 =
      Except.error ⟨("RuntimeError"), ("boom")⟩ := rfl

theorem queryFx_isOk (q : QueryWorldFx)
    (hqe : q.existsOutcome.isOk = true)
    (hqi : q.iterdirOutcome.isOk = true)
    (hqs : q.statOutcome.isOk = true) :
    (get_last_downloaded_file_info_fx q).isOk = true := by
  obtain ⟨dd, fs, eo, io, so⟩ := q
  cases eo with
  | error f => exact Bool.noConfusion hqe
  | ok u =>
    cases io with
    | error f => exact Bool.noConfusion hqi
    | ok v =>
      cases so with
      | error f => exact Bool.noConfusion hqs
      | ok z =>
        cases dd with
        | none => rfl
        | some d =>
            by_cases hne : d = ""
            · simp [get_last_downloaded_file_info_fx, hne, Except.isOk, Except.toBool]
            · cases hdir : fs.hasDir d with
              | false =>
                  simp [get_last_downloaded_file_info_fx, hne, hdir,
                    Except.isOk, Except.toBool]
              | true =>
                  cases hfi : filesInDir fs d with
                  | nil =>
                      simp [get_last_downloaded_file_info_fx, hne, hdir, hfi,
                        Except.isOk, Except.toBool]
                  | cons f rest =>
                      simp [get_last_downloaded_file_info_fx, hne, hdir, hfi,
                        Except.isOk, Except.toBool]

theorem clickFx_isOk (i : Nat) (w : ClickWorld) (eo : Except Fault Unit)
    (he : eo.isOk = true) (hp : w.page.isOk = true) :
    (click_and_wait_for_download_fx i w eo).1.isOk = true := by
  cases eo with
  | error f => exact Bool.noConfusion he
  | ok u =>
      cases hdd : w.downloadsDir with
      | none =>
          simp [click_and_wait_for_download_fx, hdd, Except.isOk, Except.toBool]
      | some d =>
          by_cases hne : d = ""
          · simp [click_and_wait_for_download_fx, hdd, hne, Except.isOk, Except.toBool]
          · cases hdir : w.fs.hasDir d with
            | true =>
                have h2 := pagePhase_isOk i w d w.fs hp
                simpa [click_and_wait_for_download_fx, hdd, hne, hdir] using h2
            | false =>
                cases hmk : w.mkdirOutcome with
                | error f2 =>
                    simp [click_and_wait_for_download_fx, hdd, hne, hdir, hmk,
                      Except.isOk, Except.toBool]
                | ok v =>
                    have h2 := pagePhase_isOk i w d (w.fs.mkdirParents d) hp
                    simpa [click_and_wait_for_download_fx, hdd, hne, hdir, hmk] using h2

theorem clickFx_ok_agrees (i : Nat) (w : ClickWorld) :
    click_and_wait_for_download_fx i w (Except.ok ()) =
      click_and_wait_for_download_impl i w := by
  cases hdd : w.downloadsDir with
  | none =>
      simp [click_and_wait_for_download_fx, click_and_wait_for_download_impl, hdd]
  | some d =>
      by_cases hne : d = ""
      · simp [click_and_wait_for_download_fx, click_and_wait_for_download_impl,
          hdd, hne]
      · cases hdir : w.fs.hasDir d with
        | true =>
            simp [click_and_wait_for_download_fx, click_and_wait_for_download_impl,
              hdd, hne, hdir]
        | false =>
            cases hmk : w.mkdirOutcome with
            | error f =>
                simp [click_and_wait_for_download_fx,
                  click_and_wait_for_download_impl, hdd, hne, hdir, hmk]
            | ok u =>
                simp [click_and_wait_for_download_fx,
                  click_and_wait_for_download_impl, hdd, hne, hdir, hmk]

theorem queryFx_ok_agrees (dd : Option String) (fs : FS) :
    get_last_downloaded_file_info_fx ⟨dd, fs, Except.ok (), Except.ok (), Except.ok ()⟩ =
      Except.ok (get_last_downloaded_file_info_impl ⟨dd, fs⟩).1 := by
  cases dd with
  | none => rfl
  | some d =>
      by_cases hne : d = ""
      · simp [get_last_downloaded_file_info_fx, get_last_downloaded_file_info_impl, hne]
      · cases hdir : fs.hasDir d with
        | false =>
            simp [get_last_downloaded_file_info_fx,
              get_last_downloaded_file_info_impl, hne, hdir]
        | true =>
            cases hfi : filesInDir fs d with
            | nil =>
                simp [get_last_downloaded_file_info_fx,
                  get_last_downloaded_file_info_impl, hne, hdir, hfi]
            | cons f rest =>
                simp [get_last_downloaded_file_info_fx,
                  get_last_downloaded_file_info_impl, hne, hdir, hfi]

/-- C1 (amended): faults raised inside each guarded region are caught and
mapped to error envelopes - in upload, faults from the file-attachment
call; in click-and-confirm-download, every fault from the element-finding
block, the click/download-wait/save block, and directory creation.  All
other underlying faults propagate to the caller uncaught: upload's two
element-resolution calls, the download action's directory-existence check
and current-page retrieval, and the latest-download query's filesystem
calls (exists, iterdir, stat - the query's only guard is an
`except ValueError` around `max`).  The theorem proves the wrapped side
over the fault-injectable embeddings, and exhibits each unguarded
filesystem call propagating its fault. -/
theorem c1_amended_guarded_faults_wrapped (i : Nat) (path : String)
    (abspath : String → String) (allow : List String) (s : UploadSession)
    (hf : s.findFileUploadElementByIndex.isOk = true)
    (hl : s.getLocateElement.isOk = true)
    (j : Nat) (w : ClickWorld) (eo : Except Fault Unit)
    (he : eo.isOk = true) (hp : w.page.isOk = true)
    (q : QueryWorldFx)
    (hqe : q.existsOutcome.isOk = true)
    (hqi : q.iterdirOutcome.isOk = true)
    (hqs : q.statOutcome.isOk = true) :
    (upload_file_action_impl i path abspath allow s).1.isOk = true ∧
    (click_and_wait_for_download_fx j w eo).1.isOk = true ∧
    (get_last_downloaded_file_info_fx q).isOk = true ∧
    get_last_downloaded_file_info_fx qwExistsFault =
      Except.error ⟨("OSError"), ("denied")⟩ ∧
    get_last_downloaded_file_info_fx qwIterFault =
      Except.error ⟨("OSError"), ("denied")⟩ ∧
    get_last_downloaded_file_info_fx qwStatFault =
      Except.error ⟨("FileNotFoundError"), ("gone")⟩ ∧
    (click_and_wait_for_download_fx 2 cwOk
        (Except.error ⟨("OSError"), ("denied")⟩)).1 =
      Except.error ⟨("OSError"), ("denied")⟩ :=
  ⟨upload_isOk i path abspath allow s hf hl,
    clickFx_isOk j w eo he hp,
    queryFx_isOk q hqe hqi hqs,
    rfl, rfl, rfl, rfl⟩

/-- Witness for the amended C1. -/
theorem c1_amended_witness :
    (sessionOk.findFileUploadElementByIndex.isOk = true ∧
      sessionOk.getLocateElement.isOk = true ∧
      (Except.ok () : Except Fault Unit).isOk = true ∧
      cwOk.page.isOk = true ∧
      qwFxOk.existsOutcome.isOk = true ∧
      qwFxOk.iterdirOutcome.isOk = true ∧
      qwFxOk.statOutcome.isOk = true) ∧
    (upload_file_action_impl 1 ("/a") idStr [("/a")] sessionOk).1.isOk = true ∧
    (click_and_wait_for_download_fx 2 cwOk (Except.ok ())).1.isOk = true ∧
    (get_last_downloaded_file_info_fx qwFxOk).isOk = true ∧
    get_last_downloaded_file_info_fx qwExistsFault =
      Except.error ⟨("OSError"), ("denied")⟩ ∧
    get_last_downloaded_file_info_fx qwIterFault =
      Except.error ⟨("OSError"), ("denied")⟩ ∧
    get_last_downloaded_file_info_fx qwStatFault =
      Except.error ⟨("FileNotFoundError"), ("gone")⟩ ∧
    (click_and_wait_for_download_fx 2 cwOk
        (Except.error ⟨("OSError"), ("denied")⟩)).1 =
      Except.error ⟨("OSError"), ("denied")⟩ :=
  ⟨⟨rfl, rfl, rfl, rfl, rfl, rfl, rfl⟩,
    c1_amended_guarded_faults_wrapped 1 ("/a") idStr [("/a")] sessionOk rfl rfl
      2 cwOk (Except.ok ()) rfl rfl qwFxOk rfl rfl rfl⟩

/-- C5 counterexample: with 7 the only valid index, requesting index 3
returns the not-found envelope, but the returned message does not list the
valid index 7 (the listing exists only in a debug print), refuting the
claim that the message lists exactly the set of currently valid indices. -/
theorem c5_counterexample :
    (click_and_wait_for_download_impl 3 cwOnly7).1 =
      Except.ok (errResult (indexNotFoundMsg 3)) ∧
    strContains (indexNotFoundMsg 3) (toString 7) = false :=
  ⟨rfl, rfl⟩

/-- C5 (amended): for an index absent from the snapshot, the download
action returns a not-found envelope naming the requested index (but not
the valid ones), and the upload action returns its element-not-found
envelope naming the requested index. -/
theorem c5_amended_not_found_names_requested_index (i : Nat) (w : ClickWorld)
    (d : String) (m : List (Nat × ElementInfo))
    (hd : w.downloadsDir = some d) (hne : d ≠ "")
    (hmk : w.fs.hasDir d = true ∨ w.mkdirOutcome = Except.ok ())
    (hp : w.page = Except.ok (some ()))
    (hs : w.stateSummary = Except.ok (some m))
    (hm : m.isEmpty = false)
    (habs : m.lookup i = none)
    (j : Nat) (path : String) (abspath : String → String) (allow : List String)
    (s : UploadSession)
    (hallow : uploadPathAllowed abspath path allow = true)
    (hfind : s.findFileUploadElementByIndex = Except.ok none) :
    (click_and_wait_for_download_impl i w).1 =
      Except.ok (errResult (indexNotFoundMsg i)) ∧
    strContains (indexNotFoundMsg i) (toString i) = true ∧
    (upload_file_action_impl j path abspath allow s).1 =
      Except.ok (errResult (("No file-upload element found at index ") ++ toString j)) ∧
    strContains (("No file-upload element found at index ") ++ toString j)
      (toString j) = true := by
  refine ⟨?_, ?_, ?_, ?_⟩
  · rcases click_reaches_pagePhase i w d hd hne hmk with e | e <;>
      rw [e, pagePhase_indexNotFound i w d _ m hp hs hm habs]
  · unfold indexNotFoundMsg
    simp only [String.append_assoc]
    exact strContains_append_left _ (strContains_self_append _ _)
  · unfold upload_file_action_impl
    simp [hallow, hfind]
  · exact strContains_append_left _ (strContains_self _)

/-- Witness for the amended C5. -/
theorem c5_amended_witness :
    (click_and_wait_for_download_impl 3 cwOnly7).1 =
      Except.ok (errResult (indexNotFoundMsg 3)) ∧
    strContains (indexNotFoundMsg 3) (toString 3) = true ∧
    (upload_file_action_impl 4 ("/a") idStr [("/a")] sessionNoEl).1 =
      Except.ok (errResult (("No file-upload element found at index ") ++ toString 4)) ∧
    strContains (("No file-upload element found at index ") ++ toString 4)
      (toString 4) = true :=
  c5_amended_not_found_names_requested_index 3 cwOnly7 ("/dl") [(7, elA)]
    rfl (by decide) (Or.inl rfl) rfl rfl rfl rfl 4 ("/a") idStr [("/a")]
    sessionNoEl rfl rfl

/-- C9 counterexample: under a canonicalization collapsing `./a` to `/a`,
the current upload variant accepts path `./a` against allow-list `[/a]`
while the older variant rejects the same pair; and on a path both accept,
the success envelopes disagree on includeInMemory (true versus false). -/
theorem c9_counterexample :
    (upload_file_action_impl 1 ("./a") canonEx [("/a")] sessionOk).1 =
      Except.ok (okResult ("Successfully uploaded file “./a” to element at index 1.")) ∧
    (upload_file 1 ("./a") [("/a")] sessionOk).1 =
      Except.ok (errResult ("File path ./a is not in the allowed list")) ∧
    (upload_file 1 ("/a") [("/a")] sessionOk).1 =
      Except.ok (okResultQuiet ("Uploaded “/a” at index 1")) ∧
    (okResult ("Successfully uploaded file “./a” to element at index 1.")).includeInMemory
      = true ∧
    (okResultQuiet ("Uploaded “/a” at index 1")).includeInMemory = false :=
  ⟨rfl, rfl, rfl, rfl, rfl⟩

/-- C9 (amended): when the path and every allow-list entry are fixed points
of canonicalization, the two upload variants compute the same accept/reject
decision; on acceptance with a successful session they return their success
envelopes, the current variant with includeInMemory true and the older one
with includeInMemory false. -/
theorem c9_amended_agreement_on_canonical_paths (i : Nat) (path : String)
    (abspath : String → String) (allow : List String)
    (hfix : abspath path = path) (hfixall : allow.map abspath = allow)
    (s : UploadSession) :
    uploadPathAllowed abspath path allow = uploadPathAllowedOld path allow ∧
    (uploadPathAllowedOld path allow = true →
      s.findFileUploadElementByIndex = Except.ok (some ()) →
      s.getLocateElement = Except.ok (Except.ok ()) →
      (upload_file_action_impl i path abspath allow s).1 =
        Except.ok (okResult (("Successfully uploaded file “") ++ path ++
          ("” to element at index ") ++ toString i ++ ("."))) ∧
      (upload_file i path allow s).1 =
        Except.ok (okResultQuiet (("Uploaded “") ++ path ++ ("” at index ") ++
          toString i))) := by
  have hagree : uploadPathAllowed abspath path allow = uploadPathAllowedOld path allow := by
    unfold uploadPathAllowed uploadPathAllowedOld
    rw [hfix, hfixall]
  refine ⟨hagree, ?_⟩
  intro hall hfnd hloc
  constructor
  · unfold upload_file_action_impl
    rw [hagree]
    simp [hall, hfnd, hloc]
  · unfold upload_file
    simp [hall, hfnd, hloc]

/-- Witness for the amended C9 on the already-canonical path `/a`. -/
theorem c9_amended_witness :
    (idStr ("/a") = ("/a") ∧ List.map idStr [("/a")] = [("/a")] ∧
      uploadPathAllowedOld ("/a") [("/a")] = true) ∧
    uploadPathAllowed idStr ("/a") [("/a")] = uploadPathAllowedOld ("/a") [("/a")] ∧
    ((upload_file_action_impl 1 ("/a") idStr [("/a")] sessionOk).1 =
        Except.ok (okResult (("Successfully uploaded file “") ++ ("/a") ++
          ("” to element at index ") ++ toString 1 ++ ("."))) ∧
      (upload_file 1 ("/a") [("/a")] sessionOk).1 =
        Except.ok (okResultQuiet (("Uploaded “") ++ ("/a") ++ ("” at index ") ++
          toString 1))) :=
  ⟨⟨rfl, rfl, rfl⟩,
    (c9_amended_agreement_on_canonical_paths 1 ("/a") idStr [("/a")] rfl rfl sessionOk).1,
    (c9_amended_agreement_on_canonical_paths 1 ("/a") idStr [("/a")] rfl rfl
      sessionOk).2 rfl rfl rfl⟩

end Dropstep
